import Mathlib

/-!
RCL shadow-mode policy engine — shallow embedding.

This file embeds the core of the RCL (Risk Control Layer) shadow-mode policy
enforcement service in Lean 4 and proves specification properties about it.

The orchestration endpoint (`evaluate_event`, `put_policy`) is translated from
`app/main.py`.  The rule evaluator, aggregate queries, policy store and the
decision ledger live in `app/rules.py` / `app/db.py`, which are not part of the
available source tree; those definitions are modelled from the specification
(sections 3, 4.1–4.4), and each such definition is marked
`Modelled from the spec:` in its doc comment.

Conventions of the embedding:
* timestamps and window widths are abstract integers (the spec's arithmetic
  `asOf − windowHours`, `event.timestamp − firstSeen < new_entity_days` is
  taken literally, units abstracted away);
* monetary amounts are integers;
* the server clock read `datetime.utcnow()` (main.py line 123) is passed in
  as an explicit `now` parameter;
* fallible storage is modelled with `Except` and per-layer availability flags.
-/

namespace RCL

/-- Verdict of an evaluation, `app/schemas.py` `Verdict`:
`allow`, `hold-for-review` or `block`. -/
inductive Verdict where
  | allow
  | holdForReview
  | block
deriving DecidableEq, Repr

/-- Modelled from the spec: `Rule` is a tagged variant over
ceiling / velocity / cohort (spec §3); `app/rules.py` is absent from the
source tree.  Field names follow the policy structure shown in `app/main.py`
(the policy structure reference block in the console page). -/
inductive Rule where
  | ceiling (daily_limit : Int) (action : Verdict)
  | velocity (max_tx_per_hour : Int) (window_hours : Int) (action : Verdict)
  | cohort (block_threshold : Int) (hold_threshold : Int) (new_entity_days : Int)
deriving DecidableEq, Repr

/-- Modelled from the spec: a versioned policy snapshot (spec §3),
`{version, rules : mapping rule_id → Rule, updated_at}`. -/
structure Policy where
  version : Nat
  updated_at : Int
  rules : List (String × Rule)
deriving DecidableEq, Repr

/-- Look a rule up by its id in the policy's rule mapping. -/
def lookupRule (p : Policy) (rid : String) : Option Rule :=
  (p.rules.find? (fun kv => kv.1 == rid)).map Prod.snd

/-- A row of the decision ledger, after `app/main.py` `insert_decision` call
(lines 136–150): the caller-supplied event timestamp is stored as `event_ts`,
the server clock as `evaluated_at`. -/
structure Decision where
  event_id : String
  tenant : String
  scenario : String
  entity_id : String
  amount : Int
  currency : String
  event_type : String
  event_ts : Int
  verdict : Verdict
  rule_id : Option String
  rule_snapshot : Option (List (String × Int))
  reason : String
  evaluated_at : Int
deriving DecidableEq, Repr

/-- Key predicate of the aggregate queries: a ledger row belongs to the
`(tenant, scenario, entity_id)` key (spec §4.2). -/
def keyMatch (tenant scenario entity_id : String) (d : Decision) : Bool :=
  d.tenant == tenant && d.scenario == scenario && d.entity_id == entity_id

/-- Modelled from the spec: membership of a ledger row in the aggregation
window ending at `asOf` of width `windowHours` (spec §4.2 and §8).  The spec
states twice that a row with `evaluated_at` exactly at `asOf − windowHours`
is excluded, so the window is open at both ends. -/
def inWindow (asOf windowHours : Int) (d : Decision) : Bool :=
  decide (asOf - windowHours < d.evaluated_at) && decide (d.evaluated_at < asOf)

/-- Modelled from the spec: `SumAmount(entity, asOf, windowHours)` (spec §4.2),
sum of amounts of prior decisions of the key inside the window;
`app/db.py` is absent from the source tree. -/
def sumAmount (ledger : List Decision) (tenant scenario entity_id : String)
    (asOf windowHours : Int) : Int :=
  ((ledger.filter (fun d =>
      keyMatch tenant scenario entity_id d && inWindow asOf windowHours d)).map
    (fun d => d.amount)).sum

/-- Modelled from the spec: `CountEvents(entity, asOf, windowHours)`
(spec §4.2), count of prior decisions of the key inside the window. -/
def countEvents (ledger : List Decision) (tenant scenario entity_id : String)
    (asOf windowHours : Int) : Int :=
  ((ledger.filter (fun d =>
      keyMatch tenant scenario entity_id d && inWindow asOf windowHours d)).length : Int)

/-- Modelled from the spec: `FirstSeen(entity)` (spec §4.2), earliest recorded
`evaluated_at` for the key, or `none` if never seen. -/
def firstSeen (ledger : List Decision) (tenant scenario entity_id : String) :
    Option Int :=
  match (ledger.filter (keyMatch tenant scenario entity_id)).map
      (fun d => d.evaluated_at) with
  | [] => none
  | t :: ts => some (ts.foldl min t)

/-- Result of a rule breach (spec §4.3): verdict, winning rule id, a
human-readable reason, and a snapshot of the numeric inputs examined. -/
structure EvaluationResult where
  verdict : Verdict
  rule_id : String
  reason : String
  snapshot : List (String × Int)
deriving DecidableEq, Repr

/-- Reason string of a ceiling breach; cites the window total and the
configured daily limit (spec §4.3 item 1). -/
def ceilReason (total dailyLimit : Int) : String :=
  s!"24h total {total} exceeds daily_limit {dailyLimit}"

/-- Reason string of a velocity breach; cites the window count and the
configured rate limit (spec §4.3 item 2). -/
def velReason (count rateLimit : Int) : String :=
  s!"tx count {count} exceeds limit {rateLimit}"

/-- Reason string of a cohort block breach (spec §4.3 item 3). -/
def cohortBlockReason (amount threshold : Int) : String :=
  s!"new entity: amount {amount} at or above block_threshold {threshold}"

/-- Reason string of a cohort hold breach (spec §4.3 item 3). -/
def cohortHoldReason (amount threshold : Int) : String :=
  s!"new entity: amount {amount} at or above hold_threshold {threshold}"

/-- Modelled from the spec: the ceiling rule `R-CEIL` (spec §4.3 item 1).
`total = SumAmount(entity, event.timestamp, 24h) + event.amount`; breach
exactly when `total > daily_limit`; verdict is the policy-configured action. -/
def checkCeiling (p : Policy) (ledger : List Decision)
    (tenant scenario entity_id : String) (amount timestamp : Int) :
    Option EvaluationResult :=
  match lookupRule p "R-CEIL" with
  | some (Rule.ceiling dl act) =>
      let total := sumAmount ledger tenant scenario entity_id timestamp 24 + amount
      if total > dl then
        some ⟨act, "R-CEIL", ceilReason total dl,
              [("total", total), ("daily_limit", dl)]⟩
      else none
  | _ => none

/-- Modelled from the spec: the velocity rule `R-VEL` (spec §4.3 item 2).
`count = CountEvents(entity, event.timestamp, window_hours) + 1`; breach
exactly when `count > max_tx_per_hour × window_hours`. -/
def checkVelocity (p : Policy) (ledger : List Decision)
    (tenant scenario entity_id : String) (amount timestamp : Int) :
    Option EvaluationResult :=
  match lookupRule p "R-VEL" with
  | some (Rule.velocity maxPerHour wh act) =>
      let count := countEvents ledger tenant scenario entity_id timestamp wh + 1
      if count > maxPerHour * wh then
        some ⟨act, "R-VEL", velReason count (maxPerHour * wh),
              [("count", count), ("limit", maxPerHour * wh)]⟩
      else none
  | _ => none

/-- Modelled from the spec: the cohort rule `R-COHORT` (spec §4.3 item 3).
An entity is "new" if `FirstSeen` is none or
`event.timestamp − firstSeen < new_entity_days`; a new entity blocks at or
above `block_threshold`, else holds at or above `hold_threshold`; established
entities never trigger this rule. -/
def checkCohort (p : Policy) (ledger : List Decision)
    (tenant scenario entity_id : String) (amount timestamp : Int) :
    Option EvaluationResult :=
  match lookupRule p "R-COHORT" with
  | some (Rule.cohort bt ht nd) =>
      let isNew : Bool :=
        match firstSeen ledger tenant scenario entity_id with
        | none => true
        | some fs => decide (timestamp - fs < nd)
      if isNew then
        if amount ≥ bt then
          some ⟨Verdict.block, "R-COHORT", cohortBlockReason amount bt,
                [("amount", amount), ("block_threshold", bt)]⟩
        else if amount ≥ ht then
          some ⟨Verdict.holdForReview, "R-COHORT", cohortHoldReason amount ht,
                [("amount", amount), ("hold_threshold", ht)]⟩
        else none
      else none
  | _ => none

/-- Modelled from the spec: `evaluate_rules` of `app/rules.py` (absent from
the source tree).  Evaluation proceeds in the fixed priority order
ceiling, velocity, cohort; the first rule whose condition is true wins
(short-circuit); `none` means no rule breached (spec §4.3). -/
def evaluate_rules (p : Policy) (ledger : List Decision)
    (tenant scenario entity_id : String) (amount timestamp : Int) :
    Option EvaluationResult :=
  match checkCeiling p ledger tenant scenario entity_id amount timestamp with
  | some r => some r
  | none =>
      match checkVelocity p ledger tenant scenario entity_id amount timestamp with
      | some r => some r
      | none => checkCohort p ledger tenant scenario entity_id amount timestamp

/-- Incoming request body, `app/schemas.py` `EvaluateRequest` (fields as used
by `evaluate_event` in `app/main.py`). -/
structure EvaluateRequest where
  event_id : String
  tenant : String
  scenario : String
  entity_id : String
  amount : Int
  currency : String
  event_type : String
  timestamp : Int
deriving DecidableEq, Repr

/-- Response body, `app/schemas.py` `EvaluateResponse` (fields as constructed
by `evaluate_event` in `app/main.py`, lines 105–111 and 152–158). -/
structure EvaluateResponse where
  event_id : String
  verdict : Verdict
  rule_id : Option String
  reason : String
  evaluated_at : Int
deriving DecidableEq, Repr

/-- Server-side persistent state: the current policy and the append-only
decision ledger. -/
structure ServerState where
  policy : Policy
  ledger : List Decision
deriving DecidableEq, Repr

/-- Modelled from the spec: `db.get_decision_by_event_id` (`app/db.py` is
absent from the source tree) — the `Lookup(tenant, scenario, event_id)`
idempotency check of the DecisionLedger (spec §4.4). -/
def get_decision_by_event_id (ledger : List Decision)
    (event_id tenant scenario : String) : Option Decision :=
  ledger.find? (fun d =>
    d.event_id == event_id && d.tenant == tenant && d.scenario == scenario)

/-- The response built from a pre-existing decision,
`app/main.py` lines 105–111. -/
def responseOfExisting (existing : Decision) : EvaluateResponse :=
  ⟨existing.event_id, existing.verdict, existing.rule_id, existing.reason,
   existing.evaluated_at⟩

/-- Verdict of an evaluator result, `app/main.py` lines 125–131
(`None` maps to allow). -/
def verdictOf : Option EvaluationResult → Verdict
  | none => Verdict.allow
  | some r => r.verdict

/-- Rule id of an evaluator result, `app/main.py` lines 127 and 132. -/
def ruleIdOf : Option EvaluationResult → Option String
  | none => none
  | some r => some r.rule_id

/-- Reason of an evaluator result, `app/main.py` lines 128 and 133. -/
def reasonOf : Option EvaluationResult → String
  | none => "All rules passed"
  | some r => r.reason

/-- Stored rule snapshot of an evaluator result,
`app/main.py` lines 129 and 134. -/
def snapshotOf : Option EvaluationResult → Option (List (String × Int))
  | none => none
  | some r => some r.snapshot

/-- The orchestrator `evaluate_event` of `app/main.py` (lines 96–158):
look the event up in the ledger; if present return the original decision;
otherwise evaluate the rules, append one decision row stamped with the server
clock `now` (`datetime.utcnow()`, line 123; the caller-supplied timestamp is
stored separately as `event_ts`), and return the fresh verdict.  The ledger
append stands for `db.insert_decision` of the append-only DecisionLedger
(spec §4.4; `app/db.py` absent from the source tree). -/
def evaluate_event (st : ServerState) (req : EvaluateRequest) (now : Int) :
    EvaluateResponse × ServerState :=
  match get_decision_by_event_id st.ledger req.event_id req.tenant req.scenario with
  | some existing => (responseOfExisting existing, st)
  | none =>
      let result := evaluate_rules st.policy st.ledger req.tenant req.scenario
        req.entity_id req.amount req.timestamp
      let d : Decision :=
        ⟨req.event_id, req.tenant, req.scenario, req.entity_id, req.amount,
         req.currency, req.event_type, req.timestamp, verdictOf result,
         ruleIdOf result, snapshotOf result, reasonOf result, now⟩
      (⟨req.event_id, verdictOf result, ruleIdOf result, reasonOf result, now⟩,
       ⟨st.policy, st.ledger ++ [d]⟩)

/-- Modelled from the spec: the storage failure class surfaced to the caller
when the ledger or aggregate layer cannot be reached (spec §6, §7). -/
inductive PersistenceError where
  | unavailable
deriving DecidableEq, Repr

/-- Availability of the storage layers touched by one `Evaluate` call:
the ledger idempotency lookup, the aggregate queries, and the ledger append. -/
structure DbAvail where
  ledger_read : Bool
  aggregates : Bool
  ledger_write : Bool
deriving DecidableEq, Repr

/-- Modelled from the spec: the ledger lookup as a fallible storage call —
fails with `PersistenceUnavailable` when the ledger cannot be reached. -/
def lookupE (av : DbAvail) (ledger : List Decision)
    (event_id tenant scenario : String) :
    Except PersistenceError (Option Decision) :=
  if av.ledger_read then
    Except.ok (get_decision_by_event_id ledger event_id tenant scenario)
  else Except.error PersistenceError.unavailable

/-- Modelled from the spec: rule evaluation as a fallible call — the evaluator
reads the aggregate layer, so it fails when that layer cannot be reached. -/
def evaluateRulesE (av : DbAvail) (p : Policy) (ledger : List Decision)
    (tenant scenario entity_id : String) (amount timestamp : Int) :
    Except PersistenceError (Option EvaluationResult) :=
  if av.aggregates then
    Except.ok (evaluate_rules p ledger tenant scenario entity_id amount timestamp)
  else Except.error PersistenceError.unavailable

/-- Modelled from the spec: the ledger append as a fallible storage call. -/
def insertE (av : DbAvail) (ledger : List Decision) (d : Decision) :
    Except PersistenceError (List Decision) :=
  if av.ledger_write then Except.ok (ledger ++ [d])
  else Except.error PersistenceError.unavailable

/-- `evaluate_event` with fallible storage.  `app/main.py` wraps none of its
`db` calls in an exception handler, so a storage failure propagates out of the
endpoint; this monadic form makes that propagation explicit. -/
def evaluate_eventE (av : DbAvail) (st : ServerState) (req : EvaluateRequest)
    (now : Int) : Except PersistenceError (EvaluateResponse × ServerState) := do
  let existing ← lookupE av st.ledger req.event_id req.tenant req.scenario
  match existing with
  | some ex => return (responseOfExisting ex, st)
  | none => do
      let result ← evaluateRulesE av st.policy st.ledger req.tenant req.scenario
        req.entity_id req.amount req.timestamp
      let d : Decision :=
        ⟨req.event_id, req.tenant, req.scenario, req.entity_id, req.amount,
         req.currency, req.event_type, req.timestamp, verdictOf result,
         ruleIdOf result, snapshotOf result, reasonOf result, now⟩
      let ledger2 ← insertE av st.ledger d
      return (⟨req.event_id, verdictOf result, ruleIdOf result, reasonOf result,
               now⟩,
              ⟨st.policy, ledger2⟩)

/-- Modelled from the spec: a raw rule-shaped object of a policy update body
(spec §4.1): a bag of optional threshold fields, to be matched against the
known rule shapes. -/
structure RawRule where
  daily_limit : Option Int
  action : Option Verdict
  max_tx_per_hour : Option Int
  window_hours : Option Int
  block_threshold : Option Int
  hold_threshold : Option Int
  new_entity_days : Option Int
deriving DecidableEq, Repr

/-- Modelled from the spec: shape validation of one rule object — it must
match exactly one of the known rule types (spec §4.1); `none` means the shape
matches no known rule type. -/
def parseRule (r : RawRule) : Option Rule :=
  match r with
  | ⟨some dl, some act, none, none, none, none, none⟩ =>
      some (Rule.ceiling dl act)
  | ⟨none, some act, some m, some w, none, none, none⟩ =>
      some (Rule.velocity m w act)
  | ⟨none, none, none, none, some bt, some ht, some nd⟩ =>
      some (Rule.cohort bt ht nd)
  | _ => none

/-- A `PUT /v1/policy` request body after JSON decoding: either not a mapping
(`app/main.py` line 198 rejects it with 400) or a mapping of rule_id to a raw
rule-shaped object. -/
inductive PolicyBody where
  | notMapping
  | mapping (entries : List (String × RawRule))
deriving DecidableEq, Repr

/-- Modelled from the spec: the validation error class of policy updates
(spec §6, §7). -/
inductive ValidationError where
  | invalid
deriving DecidableEq, Repr

/-- Modelled from the spec: validate every entry of an update body; any entry
whose shape matches no known rule type fails the whole body (spec §4.1,
"rejected entirely (no partial merge)", spec §7). -/
def parseEntries : List (String × RawRule) → Option (List (String × Rule))
  | [] => some []
  | (rid, raw) :: rest =>
      match parseRule raw, parseEntries rest with
      | some r, some rs => some ((rid, r) :: rs)
      | _, _ => none

/-- Replace the binding of `rid` in a rule mapping, or append it. -/
def setRule (rules : List (String × Rule)) (rid : String) (r : Rule) :
    List (String × Rule) :=
  if rules.any (fun kv => kv.1 == rid) then
    rules.map (fun kv => if kv.1 == rid then (rid, r) else kv)
  else rules ++ [(rid, r)]

/-- Modelled from the spec: merge validated entries into the existing rule
set; rule_ids not mentioned are left unchanged (spec §4.1). -/
def mergeRules (old upd : List (String × Rule)) : List (String × Rule) :=
  upd.foldl (fun acc kv => setRule acc kv.1 kv.2) old

/-- Modelled from the spec: `UpdatePolicy` (`db.update_policy`, `app/db.py`
absent from the source tree; the not-a-mapping rejection is `app/main.py`
lines 198–199).  Validates the whole body, then merges, increments the
version and stamps `updated_at` (spec §4.1). -/
def update_policy (p : Policy) (now : Int) (body : PolicyBody) :
    Except ValidationError Policy :=
  match body with
  | PolicyBody.notMapping => Except.error ValidationError.invalid
  | PolicyBody.mapping entries =>
      match parseEntries entries with
      | none => Except.error ValidationError.invalid
      | some rs => Except.ok ⟨p.version + 1, now, mergeRules p.rules rs⟩

/-- The stored policy after an update attempt: on rejection the store keeps
the old policy and surfaces the error (spec §7: "rejected, policy unchanged,
no version bump"). -/
def applyPolicyUpdate (p : Policy) (now : Int) (body : PolicyBody) :
    Policy × Option ValidationError :=
  match update_policy p now body with
  | Except.ok p2 => (p2, none)
  | Except.error e => (p, some e)

/-! ## Helper lemmas -/

/-- Appending one element to a list on which `find?` fails finds that element
exactly when it satisfies the predicate. -/
theorem find?_append_none {α : Type} (p : α → Bool) (l : List α) (a : α)
    (h : l.find? p = none) :
    (l ++ [a]).find? p = if p a then some a else none := by
  induction l with
  | nil => cases hx : p a <;> simp [List.find?, hx]
  | cons x xs ih =>
      cases hx : p x with
      | true => simp [List.find?, hx] at h
      | false =>
          simp only [List.find?, hx] at h
          simpa [List.find?, hx] using ih h

/-! ## Claim theorems -/

/-- C1: `Evaluate` is idempotent — for two sequential calls with identical
`(tenant, scenario, event_id)`, the second call returns the same response as
the first (same event_id, verdict, rule_id, reason, evaluated_at), even when
the second request differs in amount or any other field, and the second call
leaves the server state unchanged. -/
theorem evaluate_idempotent (st : ServerState) (req req2 : EvaluateRequest)
    (now1 now2 : Int)
    (hid : req2.event_id = req.event_id) (ht : req2.tenant = req.tenant)
    (hs : req2.scenario = req.scenario) :
    (evaluate_event (evaluate_event st req now1).2 req2 now2).1
        = (evaluate_event st req now1).1
      ∧ (evaluate_event (evaluate_event st req now1).2 req2 now2).2
        = (evaluate_event st req now1).2 := by
  cases h : get_decision_by_event_id st.ledger req.event_id req.tenant
      req.scenario with
  | some ex =>
      have h2 : get_decision_by_event_id st.ledger req2.event_id req2.tenant
          req2.scenario = some ex := by rw [hid, ht, hs]; exact h
      simp [evaluate_event, h, h2]
  | none =>
      simp only [evaluate_event, h]
      have h2 : get_decision_by_event_id
          (st.ledger ++
            [⟨req.event_id, req.tenant, req.scenario, req.entity_id, req.amount,
              req.currency, req.event_type, req.timestamp,
              verdictOf (evaluate_rules st.policy st.ledger req.tenant
                req.scenario req.entity_id req.amount req.timestamp),
              ruleIdOf (evaluate_rules st.policy st.ledger req.tenant
                req.scenario req.entity_id req.amount req.timestamp),
              snapshotOf (evaluate_rules st.policy st.ledger req.tenant
                req.scenario req.entity_id req.amount req.timestamp),
              reasonOf (evaluate_rules st.policy st.ledger req.tenant
                req.scenario req.entity_id req.amount req.timestamp), now1⟩])
          req2.event_id req2.tenant req2.scenario
          = some ⟨req.event_id, req.tenant, req.scenario, req.entity_id,
              req.amount, req.currency, req.event_type, req.timestamp,
              verdictOf (evaluate_rules st.policy st.ledger req.tenant
                req.scenario req.entity_id req.amount req.timestamp),
              ruleIdOf (evaluate_rules st.policy st.ledger req.tenant
                req.scenario req.entity_id req.amount req.timestamp),
              snapshotOf (evaluate_rules st.policy st.ledger req.tenant
                req.scenario req.entity_id req.amount req.timestamp),
              reasonOf (evaluate_rules st.policy st.ledger req.tenant
                req.scenario req.entity_id req.amount req.timestamp), now1⟩ := by
        rw [hid, ht, hs]
        unfold get_decision_by_event_id at h ⊢
        rw [find?_append_none _ _ _ h]
        simp
      simp [evaluate_event, h2, responseOfExisting]

/-- Concrete policy for the C1 witness. -/
def c1_policy : Policy := ⟨1, 0, [("R-CEIL", Rule.ceiling 500000 Verdict.block)]⟩

/-- Concrete server state for the C1 witness. -/
def c1_st : ServerState := ⟨c1_policy, []⟩

/-- Concrete first request for the C1 witness. -/
def c1_req : EvaluateRequest := ⟨"e1", "acme", "v1", "E", 1000, "USD", "payout", 100⟩

/-- Concrete second request for the C1 witness — same key, different amount
and timestamp. -/
def c1_req2 : EvaluateRequest :=
  ⟨"e1", "acme", "v1", "E", 99999999, "USD", "payout", 200⟩

/-- Witness for C1 at a concrete state and request pair. -/
theorem evaluate_idempotent_witness :
    c1_req2.event_id = c1_req.event_id ∧ c1_req2.tenant = c1_req.tenant
      ∧ c1_req2.scenario = c1_req.scenario
      ∧ ((evaluate_event (evaluate_event c1_st c1_req 100).2 c1_req2 300).1
            = (evaluate_event c1_st c1_req 100).1
          ∧ (evaluate_event (evaluate_event c1_st c1_req 100).2 c1_req2 300).2
            = (evaluate_event c1_st c1_req 100).2) :=
  ⟨rfl, rfl, rfl, evaluate_idempotent c1_st c1_req c1_req2 100 300 rfl rfl rfl⟩

/-- C6: when no rule breaches, the evaluator returns `none`, and the caller
maps that to a response with verdict `allow`, no rule_id, and reason
"All rules passed" (`app/main.py` lines 125–129). -/
theorem no_breach_maps_to_allow (st : ServerState) (req : EvaluateRequest)
    (now : Int)
    (hnew : get_decision_by_event_id st.ledger req.event_id req.tenant
      req.scenario = none)
    (hnone : evaluate_rules st.policy st.ledger req.tenant req.scenario
      req.entity_id req.amount req.timestamp = none) :
    (evaluate_event st req now).1
      = ⟨req.event_id, Verdict.allow, none, "All rules passed", now⟩ := by
  simp [evaluate_event, hnew, hnone, verdictOf, ruleIdOf, reasonOf]

/-- Concrete server state for the C6 witness: empty ledger, a ceiling rule
far above the event amount. -/
def c6_st : ServerState :=
  ⟨⟨1, 0, [("R-CEIL", Rule.ceiling 500000 Verdict.block)]⟩, []⟩

/-- Concrete request for the C6 witness. -/
def c6_req : EvaluateRequest := ⟨"e6", "acme", "v1", "E", 1000, "USD", "payout", 100⟩

/-- Witness for C6 at a concrete state and request. -/
theorem no_breach_maps_to_allow_witness :
    get_decision_by_event_id c6_st.ledger c6_req.event_id c6_req.tenant
        c6_req.scenario = none
      ∧ evaluate_rules c6_st.policy c6_st.ledger c6_req.tenant c6_req.scenario
          c6_req.entity_id c6_req.amount c6_req.timestamp = none
      ∧ (evaluate_event c6_st c6_req 100).1
          = ⟨c6_req.event_id, Verdict.allow, none, "All rules passed", 100⟩ :=
  ⟨by decide, by decide,
   no_breach_maps_to_allow c6_st c6_req 100 (by decide) (by decide)⟩

/-- C10: a first-time call (no prior decision for the key) appends exactly one
decision row, whatever the verdict; the row's `evaluated_at` is the server
clock `now` (`datetime.utcnow()`), the caller-supplied timestamp is stored
separately as `event_ts`, the returned response carries the same
`evaluated_at`, verdict, rule_id and reason as the persisted row, and an allow
outcome is persisted too, with reason "All rules passed". -/
theorem first_call_appends_one_row (st : ServerState) (req : EvaluateRequest)
    (now : Int)
    (hnew : get_decision_by_event_id st.ledger req.event_id req.tenant
      req.scenario = none) :
    ∃ d : Decision,
      (evaluate_event st req now).2.ledger = st.ledger ++ [d]
      ∧ (evaluate_event st req now).2.policy = st.policy
      ∧ d.evaluated_at = now
      ∧ d.event_ts = req.timestamp
      ∧ d.event_id = req.event_id
      ∧ (evaluate_event st req now).1.evaluated_at = d.evaluated_at
      ∧ (evaluate_event st req now).1.verdict = d.verdict
      ∧ (evaluate_event st req now).1.rule_id = d.rule_id
      ∧ (evaluate_event st req now).1.reason = d.reason
      ∧ (evaluate_rules st.policy st.ledger req.tenant req.scenario
            req.entity_id req.amount req.timestamp = none →
          d.verdict = Verdict.allow ∧ d.rule_id = none
            ∧ d.reason = "All rules passed") := by
  refine ⟨⟨req.event_id, req.tenant, req.scenario, req.entity_id, req.amount,
      req.currency, req.event_type, req.timestamp,
      verdictOf (evaluate_rules st.policy st.ledger req.tenant req.scenario
        req.entity_id req.amount req.timestamp),
      ruleIdOf (evaluate_rules st.policy st.ledger req.tenant req.scenario
        req.entity_id req.amount req.timestamp),
      snapshotOf (evaluate_rules st.policy st.ledger req.tenant req.scenario
        req.entity_id req.amount req.timestamp),
      reasonOf (evaluate_rules st.policy st.ledger req.tenant req.scenario
        req.entity_id req.amount req.timestamp), now⟩,
    ?_, ?_, rfl, rfl, rfl, ?_, ?_, ?_, ?_, ?_⟩
  · simp [evaluate_event, hnew]
  · simp [evaluate_event, hnew]
  · simp [evaluate_event, hnew]
  · simp [evaluate_event, hnew]
  · simp [evaluate_event, hnew]
  · simp [evaluate_event, hnew]
  · intro h
    simp [h, verdictOf, ruleIdOf, reasonOf]

/-- Concrete server state for the C10 witness: one unrelated prior decision. -/
def c10_st : ServerState :=
  ⟨⟨1, 0, [("R-CEIL", Rule.ceiling 500000 Verdict.block)]⟩,
   [⟨"other", "acme", "v1", "E", 5, "USD", "payout", 10, Verdict.allow, none,
     none, "All rules passed", 10⟩]⟩

/-- Concrete request for the C10 witness. -/
def c10_req : EvaluateRequest :=
  ⟨"e10", "acme", "v1", "E", 1000, "USD", "payout", 100⟩

/-- Witness for C10 at a concrete state and request. -/
theorem first_call_appends_one_row_witness :
    get_decision_by_event_id c10_st.ledger c10_req.event_id c10_req.tenant
        c10_req.scenario = none
      ∧ ∃ d : Decision,
        (evaluate_event c10_st c10_req 123).2.ledger = c10_st.ledger ++ [d]
        ∧ (evaluate_event c10_st c10_req 123).2.policy = c10_st.policy
        ∧ d.evaluated_at = 123
        ∧ d.event_ts = c10_req.timestamp
        ∧ d.event_id = c10_req.event_id
        ∧ (evaluate_event c10_st c10_req 123).1.evaluated_at = d.evaluated_at
        ∧ (evaluate_event c10_st c10_req 123).1.verdict = d.verdict
        ∧ (evaluate_event c10_st c10_req 123).1.rule_id = d.rule_id
        ∧ (evaluate_event c10_st c10_req 123).1.reason = d.reason
        ∧ (evaluate_rules c10_st.policy c10_st.ledger c10_req.tenant
              c10_req.scenario c10_req.entity_id c10_req.amount
              c10_req.timestamp = none →
            d.verdict = Verdict.allow ∧ d.rule_id = none
              ∧ d.reason = "All rules passed") :=
  ⟨by decide, first_call_appends_one_row c10_st c10_req 123 (by decide)⟩

/-- C2: rules are evaluated in the fixed priority order ceiling, velocity,
cohort, and the first breaching rule wins: whenever both the ceiling condition
and the velocity condition hold, the returned rule_id is `R-CEIL` with the
ceiling rule's configured verdict. -/
theorem rule_priority_ceiling_first (p : Policy) (ledger : List Decision)
    (t s e : String) (amt ts dl m w : Int) (act act2 : Verdict)
    (hceil : lookupRule p "R-CEIL" = some (Rule.ceiling dl act))
    (hceilCond : sumAmount ledger t s e ts 24 + amt > dl)
    (hvel : lookupRule p "R-VEL" = some (Rule.velocity m w act2))
    (hvelCond : countEvents ledger t s e ts w + 1 > m * w) :
    evaluate_rules p ledger t s e amt ts
      = some ⟨act, "R-CEIL", ceilReason (sumAmount ledger t s e ts 24 + amt) dl,
              [("total", sumAmount ledger t s e ts 24 + amt),
               ("daily_limit", dl)]⟩ := by
  unfold evaluate_rules checkCeiling
  rw [hceil]
  simp [hceilCond]

/-- Concrete policy for the C2 witness: a low ceiling and a zero-rate velocity
rule, so both conditions hold for the event. -/
def c2_policy : Policy :=
  ⟨1, 0, [("R-CEIL", Rule.ceiling 10 Verdict.block),
          ("R-VEL", Rule.velocity 0 2 Verdict.holdForReview)]⟩

/-- Concrete ledger for the C2 witness: one prior decision of the key inside
both windows. -/
def c2_ledger : List Decision :=
  [⟨"p1", "acme", "v1", "E", 20, "USD", "payout", 99, Verdict.allow, none,
    none, "All rules passed", 99⟩]

/-- Witness for C2 at a concrete policy, ledger and event on which both the
ceiling and the velocity conditions hold. -/
theorem rule_priority_ceiling_first_witness :
    lookupRule c2_policy "R-CEIL" = some (Rule.ceiling 10 Verdict.block)
      ∧ sumAmount c2_ledger "acme" "v1" "E" 100 24 + 5 > 10
      ∧ lookupRule c2_policy "R-VEL"
          = some (Rule.velocity 0 2 Verdict.holdForReview)
      ∧ countEvents c2_ledger "acme" "v1" "E" 100 2 + 1 > 0 * 2
      ∧ evaluate_rules c2_policy c2_ledger "acme" "v1" "E" 5 100
          = some ⟨Verdict.block, "R-CEIL",
                  ceilReason (sumAmount c2_ledger "acme" "v1" "E" 100 24 + 5) 10,
                  [("total", sumAmount c2_ledger "acme" "v1" "E" 100 24 + 5),
                   ("daily_limit", 10)]⟩ :=
  ⟨by decide, by decide, by decide, by decide,
   rule_priority_ceiling_first c2_policy c2_ledger "acme" "v1" "E" 5 100 10 0 2
     Verdict.block Verdict.holdForReview (by decide) (by decide) (by decide)
     (by decide)⟩

/-- C3: ceiling rule semantics — with
`total = SumAmount(entity, ts, 24) + amount`, the ceiling rule breaches
exactly when `total > daily_limit` (strict, current event included before the
comparison); on breach the verdict is the policy-configured action and the
reason cites `total` and `daily_limit`; below or at the limit the ceiling rule
does not fire. -/
theorem ceiling_rule_correct (p : Policy) (ledger : List Decision)
    (t s e : String) (amt ts dl : Int) (act : Verdict)
    (hrule : lookupRule p "R-CEIL" = some (Rule.ceiling dl act)) :
    (sumAmount ledger t s e ts 24 + amt > dl →
        evaluate_rules p ledger t s e amt ts
          = some ⟨act, "R-CEIL",
                  ceilReason (sumAmount ledger t s e ts 24 + amt) dl,
                  [("total", sumAmount ledger t s e ts 24 + amt),
                   ("daily_limit", dl)]⟩)
      ∧ (sumAmount ledger t s e ts 24 + amt ≤ dl →
          checkCeiling p ledger t s e amt ts = none) := by
  constructor
  · intro h
    unfold evaluate_rules checkCeiling
    rw [hrule]
    simp [h]
  · intro h
    have hnot : ¬ (sumAmount ledger t s e ts 24 + amt > dl) := not_lt.mpr h
    unfold checkCeiling
    rw [hrule]
    simp [hnot]

/-- Concrete policy for the C3 witness: `daily_limit = 500000`, action
block (spec scenario 1). -/
def c3_policy : Policy := ⟨1, 0, [("R-CEIL", Rule.ceiling 500000 Verdict.block)]⟩

/-- Concrete ledger for the C3 witness: prior 24h sum 550000 for entity E. -/
def c3_ledger : List Decision :=
  [⟨"p1", "acme", "v1", "E", 550000, "USD", "payout", 99, Verdict.allow, none,
    none, "All rules passed", 99⟩]

/-- Witness for C3: prior 24h sum 550000, new amount 50000 against limit
500000 — total 600000 > 500000 yields verdict block with rule `R-CEIL`. -/
theorem ceiling_rule_correct_witness :
    lookupRule c3_policy "R-CEIL" = some (Rule.ceiling 500000 Verdict.block)
      ∧ sumAmount c3_ledger "acme" "v1" "E" 100 24 + 50000 > 500000
      ∧ evaluate_rules c3_policy c3_ledger "acme" "v1" "E" 50000 100
          = some ⟨Verdict.block, "R-CEIL",
                  ceilReason (sumAmount c3_ledger "acme" "v1" "E" 100 24 + 50000)
                    500000,
                  [("total", sumAmount c3_ledger "acme" "v1" "E" 100 24 + 50000),
                   ("daily_limit", 500000)]⟩ :=
  ⟨by decide, by decide,
   (ceiling_rule_correct c3_policy c3_ledger "acme" "v1" "E" 50000 100 500000
     Verdict.block (by decide)).1 (by decide)⟩

/-- C5: cohort rule semantics — the entity is new iff `FirstSeen` is none or
`ts − firstSeen < new_entity_days`; a new entity blocks at or above
`block_threshold`, else holds at or above `hold_threshold`, else no breach;
an established entity never triggers the rule regardless of amount.  The
ceiling and velocity rules are assumed not to fire so that the evaluator's
outcome is the cohort rule's. -/
theorem cohort_rule_correct (p : Policy) (ledger : List Decision)
    (t s e : String) (amt ts bt ht nd : Int)
    (hrule : lookupRule p "R-COHORT" = some (Rule.cohort bt ht nd))
    (hceil : checkCeiling p ledger t s e amt ts = none)
    (hvel : checkVelocity p ledger t s e amt ts = none) :
    ((firstSeen ledger t s e = none
        ∨ ∃ v, firstSeen ledger t s e = some v ∧ ts - v < nd) →
        (amt ≥ bt →
          evaluate_rules p ledger t s e amt ts
            = some ⟨Verdict.block, "R-COHORT", cohortBlockReason amt bt,
                    [("amount", amt), ("block_threshold", bt)]⟩)
        ∧ (amt < bt → amt ≥ ht →
          evaluate_rules p ledger t s e amt ts
            = some ⟨Verdict.holdForReview, "R-COHORT", cohortHoldReason amt ht,
                    [("amount", amt), ("hold_threshold", ht)]⟩)
        ∧ (amt < bt → amt < ht → evaluate_rules p ledger t s e amt ts = none))
      ∧ (∀ v, firstSeen ledger t s e = some v → nd ≤ ts - v →
          evaluate_rules p ledger t s e amt ts = none) := by
  have hev : evaluate_rules p ledger t s e amt ts
      = checkCohort p ledger t s e amt ts := by
    unfold evaluate_rules
    rw [hceil, hvel]
  constructor
  · intro hnew
    have hb : (match firstSeen ledger t s e with
        | none => true
        | some fs => decide (ts - fs < nd)) = true := by
      cases hfs : firstSeen ledger t s e with
      | none => rfl
      | some v =>
          rcases hnew with hcon | ⟨v2, hv2, hlt⟩
          · rw [hfs] at hcon; exact absurd hcon (by simp)
          · rw [hfs] at hv2
            cases hv2
            simpa using hlt
    refine ⟨?_, ?_, ?_⟩
    · intro hblock
      rw [hev]
      unfold checkCohort
      rw [hrule]
      simp only [hb, if_true]
      simp [hblock]
    · intro hlt hhold
      rw [hev]
      unfold checkCohort
      rw [hrule]
      simp only [hb, if_true]
      simp [hhold, not_le.mpr hlt]
    · intro hlt1 hlt2
      rw [hev]
      unfold checkCohort
      rw [hrule]
      simp only [hb, if_true]
      simp [not_le.mpr hlt1, not_le.mpr hlt2]
  · intro v hv hold
    rw [hev]
    unfold checkCohort
    rw [hrule, hv]
    simp [not_lt.mpr hold]

/-- Concrete policy for the C5 witness: cohort thresholds of spec
scenario 3 (`new_entity_days = 30`, `block_threshold = 100000`,
`hold_threshold = 50000`); no ceiling or velocity rule configured. -/
def c5_policy : Policy :=
  ⟨1, 0, [("R-COHORT", Rule.cohort 100000 50000 30)]⟩

/-- Concrete ledger for the C5 witness: the entity was first seen 5 time
units before the event. -/
def c5_ledger : List Decision :=
  [⟨"p1", "acme", "v1", "E", 10, "USD", "payout", 95, Verdict.allow, none,
    none, "All rules passed", 95⟩]

/-- Witness for C5: entity first seen 5 < 30 units ago, amount 150000 at or
above the block threshold — the cohort block branch of the theorem yields
verdict block with rule `R-COHORT`. -/
theorem cohort_rule_correct_witness :
    lookupRule c5_policy "R-COHORT" = some (Rule.cohort 100000 50000 30)
      ∧ checkCeiling c5_policy c5_ledger "acme" "v1" "E" 150000 100 = none
      ∧ checkVelocity c5_policy c5_ledger "acme" "v1" "E" 150000 100 = none
      ∧ (firstSeen c5_ledger "acme" "v1" "E" = none
          ∨ ∃ v, firstSeen c5_ledger "acme" "v1" "E" = some v ∧ 100 - v < 30)
      ∧ (150000 : Int) ≥ 100000
      ∧ evaluate_rules c5_policy c5_ledger "acme" "v1" "E" 150000 100
          = some ⟨Verdict.block, "R-COHORT", cohortBlockReason 150000 100000,
                  [("amount", 150000), ("block_threshold", 100000)]⟩ :=
  ⟨by decide, by decide, by decide, Or.inr ⟨95, by decide, by decide⟩,
   by decide,
   ((cohort_rule_correct c5_policy c5_ledger "acme" "v1" "E" 150000 100 100000
       50000 30 (by decide) (by decide) (by decide)).1
     (Or.inr ⟨95, by decide, by decide⟩)).1 (by decide)⟩

/-- Concrete decision for the C4 counterexample: `evaluated_at` exactly at
`asOf − windowHours` (with `asOf = 24`, `windowHours = 24`). -/
def c4_d : Decision :=
  ⟨"p1", "acme", "v1", "E", 7, "USD", "payout", 0, Verdict.allow, none, none,
   "All rules passed", 0⟩

/-- C4 counterexample: the claim asserts both that the aggregates cover
exactly the half-open interval `[asOf − windowHours, asOf)` and that a row at
exactly `asOf − windowHours` is excluded — the two are contradictory at the
lower endpoint.  The model follows the exclusion (stated twice by the spec):
this key-matching row's `evaluated_at = 0` lies in `[24 − 24, 24)`, yet it
contributes to neither `SumAmount` nor `CountEvents`. -/
theorem window_boundary_counterexample :
    (24 - 24 : Int) ≤ c4_d.evaluated_at ∧ c4_d.evaluated_at < 24
      ∧ keyMatch "acme" "v1" "E" c4_d = true
      ∧ c4_d.amount = 7
      ∧ sumAmount [c4_d] "acme" "v1" "E" 24 24 = 0
      ∧ countEvents [c4_d] "acme" "v1" "E" 24 24 = 0 := by
  decide

/-- C4 (amended): the aggregation window is open at both ends — a key-matching
row with `evaluated_at` exactly at `asOf − windowHours` is excluded from both
`SumAmount` and `CountEvents`, a row strictly inside
`(asOf − windowHours, asOf)` contributes its amount and a count of one, and a
row at or after `asOf` is excluded. -/
theorem window_boundary_amended (ledger : List Decision) (t s e : String)
    (asOf w : Int) (d : Decision) (hk : keyMatch t s e d = true) :
    (d.evaluated_at = asOf - w →
        sumAmount (d :: ledger) t s e asOf w = sumAmount ledger t s e asOf w
        ∧ countEvents (d :: ledger) t s e asOf w
          = countEvents ledger t s e asOf w)
      ∧ (asOf - w < d.evaluated_at → d.evaluated_at < asOf →
        sumAmount (d :: ledger) t s e asOf w
          = d.amount + sumAmount ledger t s e asOf w
        ∧ countEvents (d :: ledger) t s e asOf w
          = countEvents ledger t s e asOf w + 1)
      ∧ (asOf ≤ d.evaluated_at →
        sumAmount (d :: ledger) t s e asOf w = sumAmount ledger t s e asOf w
        ∧ countEvents (d :: ledger) t s e asOf w
          = countEvents ledger t s e asOf w) := by
  refine ⟨?_, ?_, ?_⟩
  · intro h
    have hw : inWindow asOf w d = false := by
      unfold inWindow
      rw [h]
      simp
    constructor <;> simp [sumAmount, countEvents, List.filter_cons, hw]
  · intro h1 h2
    have hw : inWindow asOf w d = true := by
      unfold inWindow
      simp [h1, h2]
    constructor <;> simp [sumAmount, countEvents, List.filter_cons, hk, hw]
  · intro h
    have hw : inWindow asOf w d = false := by
      unfold inWindow
      simp [not_lt.mpr h]
    constructor <;> simp [sumAmount, countEvents, List.filter_cons, hw]

/-- Concrete decision for the C4 amended-theorem witness. -/
def c4_d2 : Decision :=
  ⟨"p2", "acme", "v1", "E", 9, "USD", "payout", 5, Verdict.allow, none, none,
   "All rules passed", 5⟩

/-- Witness for the amended C4 at a concrete row and window. -/
theorem window_boundary_amended_witness :
    keyMatch "acme" "v1" "E" c4_d2 = true
      ∧ ((c4_d2.evaluated_at = 24 - 24 →
          sumAmount [c4_d2] "acme" "v1" "E" 24 24
            = sumAmount [] "acme" "v1" "E" 24 24
          ∧ countEvents [c4_d2] "acme" "v1" "E" 24 24
            = countEvents [] "acme" "v1" "E" 24 24)
        ∧ (24 - 24 < c4_d2.evaluated_at → c4_d2.evaluated_at < 24 →
          sumAmount [c4_d2] "acme" "v1" "E" 24 24
            = c4_d2.amount + sumAmount [] "acme" "v1" "E" 24 24
          ∧ countEvents [c4_d2] "acme" "v1" "E" 24 24
            = countEvents [] "acme" "v1" "E" 24 24 + 1)
        ∧ (24 ≤ c4_d2.evaluated_at →
          sumAmount [c4_d2] "acme" "v1" "E" 24 24
            = sumAmount [] "acme" "v1" "E" 24 24
          ∧ countEvents [c4_d2] "acme" "v1" "E" 24 24
            = countEvents [] "acme" "v1" "E" 24 24)) :=
  ⟨by decide, window_boundary_amended [] "acme" "v1" "E" 24 24 c4_d2 (by decide)⟩

/-- C7: fail-closed on storage failure — when the ledger cannot be read the
call fails with `PersistenceUnavailable`; when the event is fresh and the
aggregate layer or the ledger append is unreachable, the call also fails; in
every failure case the error is surfaced, no decision is returned and no
state is produced, so the engine never substitutes a default allow verdict. -/
theorem fail_closed (av : DbAvail) (st : ServerState) (req : EvaluateRequest)
    (now : Int) :
    (av.ledger_read = false →
        evaluate_eventE av st req now
          = Except.error PersistenceError.unavailable)
      ∧ (av.ledger_read = true →
        get_decision_by_event_id st.ledger req.event_id req.tenant
          req.scenario = none →
        av.aggregates = false ∨ av.ledger_write = false →
        evaluate_eventE av st req now
          = Except.error PersistenceError.unavailable) := by
  constructor
  · intro h
    simp [evaluate_eventE, lookupE, h, Bind.bind, Except.bind]
  · intro h hnone hbad
    rcases hbad with hagg | hwr
    · simp [evaluate_eventE, lookupE, h, hnone, evaluateRulesE, hagg,
        Bind.bind, Except.bind]
    · cases hagg2 : av.aggregates with
      | false =>
          simp [evaluate_eventE, lookupE, h, hnone, evaluateRulesE, hagg2,
            Bind.bind, Except.bind]
      | true =>
          simp [evaluate_eventE, lookupE, h, hnone, evaluateRulesE, hagg2,
            insertE, hwr, Bind.bind, Except.bind, Functor.map, Except.map]

/-- Concrete server state for the C7 witness. -/
def c7_st : ServerState :=
  ⟨⟨1, 0, [("R-CEIL", Rule.ceiling 500000 Verdict.block)]⟩, []⟩

/-- Concrete request for the C7 witness. -/
def c7_req : EvaluateRequest := ⟨"e7", "acme", "v1", "E", 1000, "USD", "payout", 100⟩

/-- Witness for C7: each storage layer failing in turn makes the concrete
call surface `PersistenceUnavailable`. -/
theorem fail_closed_witness :
    evaluate_eventE ⟨false, true, true⟩ c7_st c7_req 100
        = Except.error PersistenceError.unavailable
      ∧ evaluate_eventE ⟨true, false, true⟩ c7_st c7_req 100
        = Except.error PersistenceError.unavailable
      ∧ evaluate_eventE ⟨true, true, false⟩ c7_st c7_req 100
        = Except.error PersistenceError.unavailable :=
  ⟨(fail_closed ⟨false, true, true⟩ c7_st c7_req 100).1 rfl,
   (fail_closed ⟨true, false, true⟩ c7_st c7_req 100).2 rfl (by decide)
     (Or.inl rfl),
   (fail_closed ⟨true, true, false⟩ c7_st c7_req 100).2 rfl (by decide)
     (Or.inr rfl)⟩

/-- One invalid entry fails the validation of the whole update body. -/
theorem parseEntries_none_of_mem (entries : List (String × RawRule))
    (rid : String) (raw : RawRule) (hmem : (rid, raw) ∈ entries)
    (hbad : parseRule raw = none) :
    parseEntries entries = none := by
  induction entries with
  | nil => cases hmem
  | cons kv rest ih =>
      cases hmem with
      | head =>
          cases hrest : parseEntries rest <;> simp [parseEntries, hbad, hrest]
      | tail _ hmem2 =>
          have hrest := ih hmem2
          cases kv with
          | mk k r => cases hr : parseRule r <;> simp [parseEntries, hr, hrest]

/-- C8: policy update validation is atomic — a body that is not a mapping, or
that contains an entry whose shape matches no known rule type, is rejected
with a `ValidationError` and the stored policy is returned completely
unchanged: same version, same `updated_at`, same rules, no partial merge. -/
theorem policy_update_atomic (p : Policy) (now : Int) (body : PolicyBody)
    (hbad : body = PolicyBody.notMapping
      ∨ ∃ entries rid raw, body = PolicyBody.mapping entries
          ∧ (rid, raw) ∈ entries ∧ parseRule raw = none) :
    applyPolicyUpdate p now body = (p, some ValidationError.invalid) := by
  rcases hbad with h | ⟨entries, rid, raw, hb, hmem, hbadraw⟩
  · subst h
    rfl
  · subst hb
    have hnone := parseEntries_none_of_mem entries rid raw hmem hbadraw
    simp [applyPolicyUpdate, update_policy, hnone]

/-- Concrete stored policy for the C8 witness. -/
def c8_policy : Policy := ⟨3, 50, [("R-CEIL", Rule.ceiling 500000 Verdict.block)]⟩

/-- Concrete malformed rule object for the C8 witness: a `daily_limit` but no
`action`, so its shape matches no known rule type. -/
def c8_raw : RawRule := ⟨some 5, none, none, none, none, none, none⟩

/-- Witness for C8: a non-mapping body and a mapping body with one malformed
entry are both rejected leaving the concrete stored policy unchanged. -/
theorem policy_update_atomic_witness :
    parseRule c8_raw = none
      ∧ applyPolicyUpdate c8_policy 77 PolicyBody.notMapping
        = (c8_policy, some ValidationError.invalid)
      ∧ applyPolicyUpdate c8_policy 77 (PolicyBody.mapping [("R-X", c8_raw)])
        = (c8_policy, some ValidationError.invalid) :=
  ⟨by decide,
   policy_update_atomic c8_policy 77 PolicyBody.notMapping (Or.inl rfl),
   policy_update_atomic c8_policy 77 (PolicyBody.mapping [("R-X", c8_raw)])
     (Or.inr ⟨[("R-X", c8_raw)], "R-X", c8_raw, rfl, List.mem_singleton.mpr rfl,
       by decide⟩)⟩

/-- Filtering by a coarser predicate first does not change a filter by a finer
one. -/
theorem filter_filter_of_imp {α : Type} (q r : α → Bool) (l : List α)
    (h : ∀ a, q a = true → r a = true) :
    (l.filter r).filter q = l.filter q := by
  induction l with
  | nil => rfl
  | cons a as ih =>
      cases hq : q a with
      | true =>
          have hr := h a hq
          simp [List.filter_cons, hq, hr, ih]
      | false =>
          cases hr : r a with
          | true => simp [List.filter_cons, hq, hr, ih]
          | false => simp [List.filter_cons, hq, hr, ih]

/-- C9: tenant isolation — removing every ledger row of a different tenant
`tB` changes none of the aggregates `SumAmount`, `CountEvents` and
`FirstSeen` computed for tenant `tA`'s key, and hence not the verdict the
evaluator produces for `tA`'s events. -/
theorem tenant_isolation (p : Policy) (ledger : List Decision)
    (tA sA eA tB : String) (asOf w amt ts : Int) (hne : tB ≠ tA) :
    sumAmount (ledger.filter (fun d => !(d.tenant == tB))) tA sA eA asOf w
        = sumAmount ledger tA sA eA asOf w
      ∧ countEvents (ledger.filter (fun d => !(d.tenant == tB))) tA sA eA asOf w
        = countEvents ledger tA sA eA asOf w
      ∧ firstSeen (ledger.filter (fun d => !(d.tenant == tB))) tA sA eA
        = firstSeen ledger tA sA eA
      ∧ evaluate_rules p (ledger.filter (fun d => !(d.tenant == tB))) tA sA eA
          amt ts
        = evaluate_rules p ledger tA sA eA amt ts := by
  have himp : ∀ d : Decision, keyMatch tA sA eA d = true
      → (!(d.tenant == tB)) = true := by
    intro d hk
    unfold keyMatch at hk
    simp only [Bool.and_eq_true, beq_iff_eq] at hk
    simp only [Bool.not_eq_true', beq_eq_false_iff_ne, ne_eq, hk.1]
    exact fun hcon => hne hcon.symm
  have hsum : ∀ a2 w2 : Int,
      sumAmount (ledger.filter (fun d => !(d.tenant == tB))) tA sA eA a2 w2
        = sumAmount ledger tA sA eA a2 w2 := by
    intro a2 w2
    unfold sumAmount
    rw [filter_filter_of_imp _ _ ledger
      (fun d hd => himp d (Bool.and_elim_left hd))]
  have hcount : ∀ a2 w2 : Int,
      countEvents (ledger.filter (fun d => !(d.tenant == tB))) tA sA eA a2 w2
        = countEvents ledger tA sA eA a2 w2 := by
    intro a2 w2
    unfold countEvents
    rw [filter_filter_of_imp _ _ ledger
      (fun d hd => himp d (Bool.and_elim_left hd))]
  have hfs : firstSeen (ledger.filter (fun d => !(d.tenant == tB))) tA sA eA
      = firstSeen ledger tA sA eA := by
    unfold firstSeen
    rw [filter_filter_of_imp _ _ ledger himp]
  refine ⟨hsum asOf w, hcount asOf w, hfs, ?_⟩
  have hceil : checkCeiling p (ledger.filter (fun d => !(d.tenant == tB)))
      tA sA eA amt ts = checkCeiling p ledger tA sA eA amt ts := by
    unfold checkCeiling
    rw [hsum ts 24]
  have hvel : checkVelocity p (ledger.filter (fun d => !(d.tenant == tB)))
      tA sA eA amt ts = checkVelocity p ledger tA sA eA amt ts := by
    unfold checkVelocity
    cases lookupRule p "R-VEL" with
    | none => rfl
    | some rule =>
        cases rule with
        | ceiling dl act => rfl
        | velocity m wh act => simp only [hcount ts wh]
        | cohort bt ht nd => rfl
  have hcoh : checkCohort p (ledger.filter (fun d => !(d.tenant == tB)))
      tA sA eA amt ts = checkCohort p ledger tA sA eA amt ts := by
    unfold checkCohort
    cases lookupRule p "R-COHORT" with
    | none => rfl
    | some rule =>
        cases rule with
        | ceiling dl act => rfl
        | velocity m wh act => rfl
        | cohort bt ht nd => simp only [hfs]
  unfold evaluate_rules
  rw [hceil, hvel, hcoh]

/-- Concrete policy for the C9 witness. -/
def c9_policy : Policy :=
  ⟨1, 0, [("R-CEIL", Rule.ceiling 500000 Verdict.block),
          ("R-VEL", Rule.velocity 50 1 Verdict.holdForReview),
          ("R-COHORT", Rule.cohort 100000 50000 30)]⟩

/-- Concrete ledger for the C9 witness: rows of tenants "A" and "B" sharing
the entity id "E". -/
def c9_ledger : List Decision :=
  [⟨"a1", "A", "v1", "E", 100, "USD", "payout", 95, Verdict.allow, none, none,
    "All rules passed", 95⟩,
   ⟨"b1", "B", "v1", "E", 400000, "USD", "payout", 96, Verdict.allow, none,
    none, "All rules passed", 96⟩,
   ⟨"b2", "B", "v1", "E", 300000, "USD", "payout", 97, Verdict.allow, none,
    none, "All rules passed", 97⟩]

/-- Witness for C9 at a concrete mixed-tenant ledger. -/
theorem tenant_isolation_witness :
    ("B" : String) ≠ "A"
      ∧ (sumAmount (c9_ledger.filter (fun d => !(d.tenant == "B"))) "A" "v1"
            "E" 100 24
          = sumAmount c9_ledger "A" "v1" "E" 100 24
        ∧ countEvents (c9_ledger.filter (fun d => !(d.tenant == "B"))) "A" "v1"
            "E" 100 24
          = countEvents c9_ledger "A" "v1" "E" 100 24
        ∧ firstSeen (c9_ledger.filter (fun d => !(d.tenant == "B"))) "A" "v1"
            "E"
          = firstSeen c9_ledger "A" "v1" "E"
        ∧ evaluate_rules c9_policy
            (c9_ledger.filter (fun d => !(d.tenant == "B"))) "A" "v1" "E" 2000
            100
          = evaluate_rules c9_policy c9_ledger "A" "v1" "E" 2000 100) :=
  ⟨by decide,
   tenant_isolation c9_policy c9_ledger "A" "v1" "E" "B" 100 24 2000 100
     (by decide)⟩

end RCL
